import Mathlib

set_option maxRecDepth 100000

/-!
Verification development for the BAA Blockchain Assistant transaction gateway
(backend/server.py, backend/mcp_evm.py).

The Python source is shallowly embedded: every tool operation becomes a pure
Lean function from an explicit environment (library behaviour, configuration,
connection context, chain oracle) to a structured result together with the
chronological list of chain RPC interactions it performs.  Python binary64
floating point arithmetic, which the source uses for token amounts, is
modelled exactly by round-to-nearest-even on unnormalised fractions.
-/

namespace BAA

/-! ## Exact model of Python binary64 float arithmetic

Python floats are IEEE-754 binary64 values.  Every float arising in this
development lies far inside the normal range, so we model a binary64 value as
the exact rational it denotes, and each arithmetic operation as the exact
rational operation followed by correct rounding to 53 significant bits with
ties to even.  Fractions are kept unnormalised (no gcd) so that all
computations reduce inside the Lean kernel. -/

/-- An unnormalised fraction num / den.  All fractions built by this
development have positive denominators. -/
structure Frac where
  num : Int
  den : Nat
deriving DecidableEq

/-- Floor of the binary logarithm of a natural number, by structural recursion
on a fuel argument (the number itself bounds the recursion depth). -/
def natLog2Aux : Nat → Nat → Nat
  | 0, _ => 0
  | f+1, n => if 2 ≤ n then natLog2Aux f (n / 2) + 1 else 0

/-- Floor of the binary logarithm of a natural number. -/
def natLog2 (n : Nat) : Nat := natLog2Aux n n

/-- Floor of the binary logarithm of the positive rational a / b. -/
def fracLog2Floor (a b : Nat) : Int :=
  let g := natLog2 a
  let h := natLog2 b
  if b * 2 ^ g ≤ a * 2 ^ h then (g : Int) - h else (g : Int) - h - 1

/-- Multiply a fraction by an integer power of two, keeping the denominator
positive. -/
def Frac.mulPow2 (x : Frac) (z : Int) : Frac :=
  if 0 ≤ z then ⟨x.num * 2 ^ z.toNat, x.den⟩ else ⟨x.num, x.den * 2 ^ (-z).toNat⟩

/-- Floor of a fraction with positive denominator. -/
def Frac.floor (x : Frac) : Int := Int.fdiv x.num x.den

/-- Round a nonnegative fraction to the nearest integer, ties to even. -/
def Frac.roundHalfEven (x : Frac) : Int :=
  let n := x.floor
  let r := 2 * (x.num - n * x.den)
  if r < (x.den : Int) then n
  else if (x.den : Int) < r then n + 1
  else if n % 2 = 0 then n else n + 1

/-- Round the positive rational a / b to the nearest IEEE-754 binary64 value
(round to nearest, ties to even), in the normal range: the significand is
scaled into [2^52, 2^53) and rounded to an integer.  Subnormals and overflow
are not modelled; every value in this development is far inside the normal
range. -/
def roundDoublePos (a b : Nat) : Frac :=
  let e : Int := fracLog2Floor a b - 52
  let m : Int := (Frac.mulPow2 ⟨(a : Int), b⟩ (-e)).roundHalfEven
  Frac.mulPow2 ⟨m, 1⟩ e

/-- Round a fraction (positive denominator) to the nearest binary64 value. -/
def roundDouble (x : Frac) : Frac :=
  if x.num = 0 then ⟨0, 1⟩
  else if 0 < x.num then roundDoublePos x.num.toNat x.den
  else
    let r := roundDoublePos (-x.num).toNat x.den
    ⟨-r.num, r.den⟩

/-- Python float multiplication: exact product, correctly rounded. -/
def pyMul (x y : Frac) : Frac := roundDouble ⟨x.num * y.num, x.den * y.den⟩

/-- Python conversion of a (possibly big) nonnegative integer to float:
correctly rounded. -/
def pyFloatOfNat (n : Nat) : Frac := roundDouble ⟨(n : Int), 1⟩

/-- Python int(...) applied to a float: truncation toward zero. -/
def Frac.trunc (x : Frac) : Int :=
  if 0 ≤ x.num then x.floor else - Frac.floor ⟨-x.num, x.den⟩

/-- Python true division of two nonnegative integers (a / b): the correctly
rounded binary64 quotient. -/
def pyDivNat (a b : Nat) : Frac := roundDouble ⟨(a : Int), b⟩

/-- The binary64 value of the Python literal 1.2 (used for the gas buffer). -/
def float1_2 : Frac := roundDouble ⟨6, 5⟩

/-- Models int(estimated_gas * 1.2) from server.py line 412: the integer gas
estimate is converted to float, multiplied by the float literal 1.2, and
truncated. -/
def gasWithBuffer (g : Nat) : Int := Frac.trunc (pyMul (pyFloatOfNat g) float1_2)

/-- Models int(amount * (10 ** token_decimals)) from server.py line 386, for a
float amount given as the exact fraction it denotes. -/
def amountInSmallestUnitF (amount : Frac) (decimals : Nat) : Int :=
  Frac.trunc (pyMul amount (pyFloatOfNat (10 ^ decimals)))

/-- The conversion of server.py line 386 on a rational amount: the amount of a
transfer request is a binary64 value, represented here by the exact rational it
denotes. -/
def amountInSmallestUnit (amount : ℚ) (decimals : Nat) : Int :=
  amountInSmallestUnitF ⟨amount.num, amount.den⟩ decimals

/-- Models balance_smallest_unit / (10 ** token_decimals) from server.py line
295: Python true division of two integers, yielding a binary64 value. -/
def balance_to_human (balance_smallest_unit : Nat) (token_decimals : Nat) : Frac :=
  pyDivNat balance_smallest_unit (10 ^ token_decimals)

/-- The round trip of a smallest-unit balance through the two conversions as
the code performs them: to human units as in get_erc20_token_balance
(server.py line 295), then back to smallest units as in send_erc20_token
(server.py line 386), both under Python binary64 float semantics. -/
def balance_round_trip (b d : Nat) : Int :=
  amountInSmallestUnitF (balance_to_human b d) d

/-- Specification-side counterpart of balance_round_trip, following the words
of the spec (section 8, round-trip consistency): the same two conversions
carried out in exact rational arithmetic instead of binary64 floats, with the
final deterministic integer conversion.  Stated separately so it can be
compared with the code-side definition. -/
def spec_round_trip_exact (b d : Nat) : Int :=
  ⌊(b : ℚ) / 10 ^ d * 10 ^ d⌋

/-! ## Data model of the gateway (server.py) -/

/-- One chain RPC interaction performed by a tool operation, in the order the
source issues them.  Connectivity probes (w3.is_connected) are modelled as a
context flag, not as data calls. -/
inductive ChainCall where
  | getBalance (addr : String)
  | balanceOf (addr : String)
  | getTransactionCount (addr : String)
  | gasPrice
  | estimateGas
  | sendRawTransaction
deriving DecidableEq

/-- Outcome of the simulated transfer call used for gas estimation
(server.py lines 407-420): success, a ContractLogicError, or any other
exception. -/
inductive EstimateGasResult where
  | ok (gas : Nat)
  | contractLogicError
  | otherError
deriving DecidableEq

/-- The chain oracle: the values the RPC endpoint returns to this process
during one operation. -/
structure Chain where
  nonce : Nat
  gasPrice : Nat
  estimateGas : EstimateGasResult
  getBalance : String → Nat
  balanceOf : String → Nat

/-- Behaviour of the web3 / Python library functions the source calls.
Web3.to_checksum_address is EIP-55 checksumming; the only property of it the
source relies on is that it is determined by the case-insensitive hex content
of its argument, which theorems state as an explicit hypothesis.  py_int
models the Python int(str) builtin (none = ValueError). -/
structure EthLib where
  is_address : String → Bool
  to_checksum_address : String → String
  to_wei : ℚ → Int
  py_int : String → Option Int

/-- Module-level configuration of server.py (environment variables and the
allow-lists parsed from them).  The empty string stands for an unset variable,
matching every use in the source (Python falsy checks). -/
structure ServerConfig where
  PRIVATE_KEY : String
  NETWORK_ID : String
  ETH_WHITELIST : List String
  ERC20_WHITELIST : List String

/-- The Web3Context dataclass of server.py lines 73-79.  connected models
"w3 is present and w3.is_connected() holds". -/
structure Web3Ctx where
  connected : Bool
  sender_address : Option String
  token_contract : Option String
  token_decimals : Option Nat
deriving DecidableEq

/-- Result of a send operation: either an error string was returned, or a
signed transaction with the recorded fields was broadcast. -/
inductive SendResult (Tx : Type) where
  | error (msg : String)
  | submitted (tx : Tx)
deriving DecidableEq

/-- Whether a send result is an error string. -/
def SendResult.isError {Tx : Type} : SendResult Tx → Bool
  | .error _ => true
  | .submitted _ => false

/-- parse_address_list from server.py lines 21-24: split the configured value
on commas, keep exactly the entries passing Web3.is_address (after strip), and
checksum them.  An unset or empty value yields the empty list.  The source
builds a set; membership is all that is ever used of it. -/
def parse_address_list (lib : EthLib) (env_value : String) : List String :=
  if env_value = "" then []
  else ((env_value.splitOn ",").filter (fun addr => lib.is_address addr.trim)).map
    (fun addr => lib.to_checksum_address addr.trim)

/-- web3_ctx.token_decimals or 18 (server.py lines 294 and 362): Python or
treats both None and 0 as falsy. -/
def effective_token_decimals (ctx : Web3Ctx) : Nat :=
  match ctx.token_decimals with
  | none => 18
  | some d => if d = 0 then 18 else d

/-- Result of get_eth_balance: an error string, or the checksummed address
with its raw wei balance (the source then formats it in ether). -/
inductive BalanceResult where
  | error (msg : String)
  | ok (checksum_address : String) (balance_wei : Nat)
deriving DecidableEq

/-- Whether a balance result is an error string. -/
def BalanceResult.isError : BalanceResult → Bool
  | .error _ => true
  | .ok _ _ => false

/-- get_eth_balance from server.py lines 171-200. -/
def get_eth_balance (lib : EthLib) (ctx : Web3Ctx) (chain : Chain) (address : String) :
    BalanceResult × List ChainCall :=
  if ¬ ctx.connected then (.error "Error: Web3 is not connected.", [])
  else if ¬ lib.is_address address then
    (.error ("Error: Invalid Ethereum address provided: " ++ address), [])
  else
    let checksum_address := lib.to_checksum_address address
    (.ok checksum_address (chain.getBalance checksum_address), [.getBalance checksum_address])

/-- The transaction dict built by send_eth (server.py lines 243-250). -/
structure EthTx where
  chainId : Int
  nonce : Nat
  toAddr : String
  value : Int
  gas : Nat
  gasPrice : Nat
deriving DecidableEq

/-- send_eth from server.py lines 203-262.  The trace lists the chain
interactions in order; signing is local and transport exceptions of the ideal
chain oracle are not modelled.  int(NETWORK_ID) is evaluated while building
the transaction dict, after the nonce and gas price reads; its ValueError is
caught by the generic handler (line 259). -/
def send_eth (lib : EthLib) (cfg : ServerConfig) (ctx : Web3Ctx) (chain : Chain)
    (to_address : String) (amount_eth : ℚ) : SendResult EthTx × List ChainCall :=
  if ¬ ctx.connected then (.error "Error: Web3 is not connected.", [])
  else match ctx.sender_address with
  | none => (.error "Error: Sender address not configured.", [])
  | some sender =>
    if ¬ lib.is_address to_address then
      (.error ("Error: Invalid recipient address: " ++ to_address), [])
    else if amount_eth ≤ 0 then (.error "Error: Amount must be greater than 0.", [])
    else if cfg.PRIVATE_KEY = "" then (.error "Error: Private key not configured.", [])
    else
      let checksum_to_address := lib.to_checksum_address to_address
      if checksum_to_address ∉ cfg.ETH_WHITELIST then
        (.error ("Error: Recipient address " ++ to_address ++
          " is not whitelisted for ETH transfers."), [])
      else
        let nonce := chain.nonce
        let gas_price := chain.gasPrice
        let value_wei := lib.to_wei amount_eth
        match lib.py_int cfg.NETWORK_ID with
        | none =>
          (.error "Error: Error sending ETH: invalid chainId",
           [.getTransactionCount sender, .gasPrice])
        | some chain_id =>
          (.submitted { chainId := chain_id, nonce := nonce, toAddr := checksum_to_address,
                        value := value_wei, gas := 21000, gasPrice := gas_price },
           [.getTransactionCount sender, .gasPrice, .sendRawTransaction])

/-- Result of get_erc20_token_balance: an error string, or the checksummed
wallet address with its balance in human units (a binary64 value). -/
inductive TokenBalanceResult where
  | error (msg : String)
  | ok (checksum_address : String) (balance_normal : Frac)
deriving DecidableEq

/-- Whether a token balance result is an error string. -/
def TokenBalanceResult.isError : TokenBalanceResult → Bool
  | .error _ => true
  | .ok _ _ => false

/-- get_erc20_token_balance from server.py lines 265-312, including the extra
balanceOf lookup of the server address performed for logging when the queried
wallet differs from the sender. -/
def get_erc20_token_balance (lib : EthLib) (ctx : Web3Ctx) (chain : Chain)
    (wallet_address : String) : TokenBalanceResult × List ChainCall :=
  if ¬ ctx.connected then (.error "Error: Web3 is not connected.", [])
  else match ctx.token_contract with
  | none => (.error "Error: ERC20 Token contract not configured or loaded.", [])
  | some _ =>
    if ¬ lib.is_address wallet_address then
      (.error ("Error: Invalid wallet address provided: " ++ wallet_address), [])
    else
      let checksum_wallet_address := lib.to_checksum_address wallet_address
      let balance_smallest_unit := chain.balanceOf checksum_wallet_address
      let token_decimals := effective_token_decimals ctx
      let balance_normal := balance_to_human balance_smallest_unit token_decimals
      match ctx.sender_address with
      | none => (.ok checksum_wallet_address balance_normal,
                 [.balanceOf checksum_wallet_address])
      | some sender =>
        if checksum_wallet_address = lib.to_checksum_address sender then
          (.ok checksum_wallet_address balance_normal, [.balanceOf checksum_wallet_address])
        else
          (.ok checksum_wallet_address balance_normal,
           [.balanceOf checksum_wallet_address, .balanceOf (lib.to_checksum_address sender)])

/-- The token transfer transaction built by send_erc20_token (server.py lines
396-429): tx_data plus the transfer(to, value) call data. -/
structure Erc20Tx where
  chainId : Int
  gasPrice : Nat
  nonce : Nat
  gas : Int
  contract : String
  transferTo : String
  transferAmount : Int
deriving DecidableEq

/-- send_erc20_token from server.py lines 342-468.  The gas estimation
failure modes follow lines 407-420: a ContractLogicError aborts the operation
before broadcast, any other estimation failure falls back to the fixed limit
200000 and the transfer proceeds.  int(NETWORK_ID) is evaluated while building
tx_data (line 399), after the nonce and gas price reads and before estimation;
its ValueError is caught at line 454.  Exception payload text inside error
messages is elided. -/
def send_erc20_token (lib : EthLib) (cfg : ServerConfig) (ctx : Web3Ctx) (chain : Chain)
    (to_address : String) (amount : ℚ) : SendResult Erc20Tx × List ChainCall :=
  let token_decimals := effective_token_decimals ctx
  if ¬ ctx.connected then (.error "Error: Web3 is not connected.", [])
  else match ctx.sender_address with
  | none => (.error "Error: Sender address not configured or loaded.", [])
  | some sender =>
    match ctx.token_contract with
    | none => (.error "Error: Token contract not configured or loaded.", [])
    | some contract_address =>
      if ¬ lib.is_address to_address then
        (.error ("Error: Invalid recipient address: " ++ to_address), [])
      else if amount ≤ 0 then (.error "Error: Amount must be positive.", [])
      else if cfg.PRIVATE_KEY = "" then (.error "Error: Server private key not available.", [])
      else
        let checksum_to_address := lib.to_checksum_address to_address
        if checksum_to_address ∉ cfg.ERC20_WHITELIST then
          (.error ("Error: Recipient address " ++ to_address ++
            " is not whitelisted for ERC20 transfers."), [])
        else
          let amount_in_smallest_unit := amountInSmallestUnit amount token_decimals
          let nonce := chain.nonce
          let current_gas_price := chain.gasPrice
          match lib.py_int cfg.NETWORK_ID with
          | none =>
            (.error "Error: Value Error during transaction: invalid chainId",
             [.getTransactionCount sender, .gasPrice])
          | some chain_id =>
            match chain.estimateGas with
            | .contractLogicError =>
              (.error "Error: Gas estimation failed. Check sender token balance.",
               [.getTransactionCount sender, .gasPrice, .estimateGas])
            | .otherError =>
              (.submitted { chainId := chain_id, gasPrice := current_gas_price, nonce := nonce,
                            gas := 200000, contract := contract_address,
                            transferTo := checksum_to_address,
                            transferAmount := amount_in_smallest_unit },
               [.getTransactionCount sender, .gasPrice, .estimateGas, .sendRawTransaction])
            | .ok estimated_gas =>
              (.submitted { chainId := chain_id, gasPrice := current_gas_price, nonce := nonce,
                            gas := gasWithBuffer estimated_gas, contract := contract_address,
                            transferTo := checksum_to_address,
                            transferAmount := amount_in_smallest_unit },
               [.getTransactionCount sender, .gasPrice, .estimateGas, .sendRawTransaction])

/-! ## Startup / lifespan (server.py lines 82-157) -/

/-- A Python value as it appears in the chain id comparison of server.py line
113: the connected chain id is an int, NETWORK_ID is the raw environment
string. -/
inductive PyVal where
  | int (n : Int)
  | str (s : String)
deriving DecidableEq

/-- Python equality between such values: values of different types are never
equal (an int never equals a str). -/
def pyEq : PyVal → PyVal → Bool
  | .int a, .int b => a == b
  | .str a, .str b => a == b
  | _, _ => false

/-- The warning printed by server.py line 114 when the chain id comparison
reports a mismatch (interpolated values elided). -/
def chain_id_mismatch_warning : String :=
  "Warning: Connected chain ID does not match expected Network ID"

/-- The warning printed by server.py line 137 when reading the token contract
decimals raises (exception text elided). -/
def decimals_warning : String := "Warning: Could not fetch token decimals"

/-- The warning printed by server.py line 139 when no token contract address
is configured. -/
def no_token_warning : String := "Warning: ERC20_TOKEN_ADDRESS not set. Token functions may fail."

/-- Everything the environment supplies to one run of web3_lifespan: the
configuration variables (empty string = unset), whether the provider answers
the liveness probe, the chain id it reports, the address derived from the
private key, and the outcome of the decimals() contract call (none = the call
raised). -/
structure LifespanEnv where
  NETWORK_RPC_URL : String
  NETWORK_ID : String
  PRIVATE_KEY : String
  TOKEN_CONTRACT_ADDRESS : String
  connect_ok : Bool
  chain_id : Int
  derived_sender : String
  decimals_result : Option Nat
deriving DecidableEq

/-- Outcome of startup: a fatal error (the raised exception prevents server
startup), or a yielded Web3Context together with the warnings printed on the
way. -/
inductive LifespanOutcome where
  | fatal (msg : String)
  | started (ctx : Web3Ctx) (warnings : List String)
deriving DecidableEq

/-- web3_lifespan from server.py lines 82-157: missing RPC url / network id /
private key and connection failure are fatal, as is a malformed configured
token address; a failing decimals() read only logs a warning and leaves
token_decimals unset.  The chain id check of line 113 compares the int chain
id with the NETWORK_ID string using Python equality. -/
def web3_lifespan (lib : EthLib) (env : LifespanEnv) : LifespanOutcome :=
  if env.NETWORK_RPC_URL = "" then .fatal "NEWTORK_RPC_URL not found in environment variables."
  else if env.NETWORK_ID = "" then .fatal "NETWORK_ID not found in environment variables."
  else if env.PRIVATE_KEY = "" then .fatal "PRIVATE_KEY not found in environment variables."
  else if ¬ env.connect_ok then .fatal "Failed to connect to Web3 provider"
  else
    let w1 : List String :=
      if pyEq (.int env.chain_id) (.str env.NETWORK_ID) then [] else [chain_id_mismatch_warning]
    if env.TOKEN_CONTRACT_ADDRESS = "" then
      .started { connected := true, sender_address := some env.derived_sender,
                 token_contract := none, token_decimals := none }
        (w1 ++ [no_token_warning])
    else if ¬ lib.is_address env.TOKEN_CONTRACT_ADDRESS then
      .fatal ("Invalid ERC20_TOKEN_ADDRESS: " ++ env.TOKEN_CONTRACT_ADDRESS)
    else
      match env.decimals_result with
      | some d =>
        .started { connected := true, sender_address := some env.derived_sender,
                   token_contract := some (lib.to_checksum_address env.TOKEN_CONTRACT_ADDRESS),
                   token_decimals := some d } w1
      | none =>
        .started { connected := true, sender_address := some env.derived_sender,
                   token_contract := some (lib.to_checksum_address env.TOKEN_CONTRACT_ADDRESS),
                   token_decimals := none }
          (w1 ++ [decimals_warning])

/-! ## Human-in-the-loop confirmation (mcp_evm.py)

The repository marks send_eth_hitl and send_erc20_hitl with
requires_confirmation=True (mcp_evm.py lines 83-97); run_agent (lines 267-279)
collects a CLI decision for every pending confirmation and continues the run.
Modelled from the spec: the surrounding agent framework is an external
library, so its pause/continue semantics follow spec section 4.6 — a pending
sensitive tool is executed exactly once if its confirmed flag is set and is
skipped (returning a cancelled result) if it is denied.  The transport-level
argument marshalling of call_mcp_tool is not modelled. -/

/-- One pending sensitive tool call: the wrapper tool invoked by the agent and
its recorded arguments (mcp_evm.py lines 83-97). -/
inductive PendingTool where
  | sendEth (to_address : String) (amount_eth : ℚ)
  | sendErc20 (token_address : String) (to_address : String) (amount : ℚ)
deriving DecidableEq

/-- Outcome of one pending confirmation after the run continues. -/
inductive HitlOutcome where
  | executedEth (r : SendResult EthTx)
  | executedErc20 (r : SendResult Erc20Tx)
  | cancelled
deriving DecidableEq

/-- The decision extracted by _confirm_tool_cli (mcp_evm.py lines 198-234)
from the first valid console answer: the loop only exits on "y" or "n", and
confirms exactly on "y". -/
def confirm_tool_cli (answer : String) : Bool := answer == "y"

/-- The body of a pending wrapper tool once it runs: send_eth_hitl forwards to
the gateway send_eth, send_erc20_hitl to send_erc20_token (mcp_evm.py lines
83-97; the extra token_address argument is forwarded but the gateway tool does
not use it). -/
def execute_pending (lib : EthLib) (cfg : ServerConfig) (ctx : Web3Ctx) (chain : Chain) :
    PendingTool → HitlOutcome × List ChainCall
  | .sendEth to_address amount_eth =>
    let r := send_eth lib cfg ctx chain to_address amount_eth
    (.executedEth r.1, r.2)
  | .sendErc20 _token_address to_address amount =>
    let r := send_erc20_token lib cfg ctx chain to_address amount
    (.executedErc20 r.1, r.2)

/-- One pending confirmation resolved by one console answer: run_agent sets
t.confirmed from the CLI decision and the framework then either executes the
tool once or skips it (modelled from the spec, section 4.6). -/
def hitl_step (lib : EthLib) (cfg : ServerConfig) (ctx : Web3Ctx) (chain : Chain)
    (answer : String) (p : PendingTool) : HitlOutcome × List ChainCall :=
  if confirm_tool_cli answer then execute_pending lib cfg ctx chain p
  else (.cancelled, [])

/-- The confirmation loop body of run_agent (mcp_evm.py lines 267-279): every
tool requiring confirmation receives a decision, then the run continues with
all of them resolved. -/
def run_confirmation_round (lib : EthLib) (cfg : ServerConfig) (ctx : Web3Ctx) (chain : Chain)
    (answers : PendingTool → String) (pending : List PendingTool) :
    List (HitlOutcome × List ChainCall) :=
  pending.map (fun p => hitl_step lib cfg ctx chain (answers p) p)

/-! ## Concrete fixtures used by witness theorems -/

/-- Lower-casing of a string, used to express that EIP-55 checksumming is
determined by the case-insensitive content of an address, and as the concrete
canonicalisation of the fixture library. -/
def lowercase (s : String) : String := ⟨s.data.map (fun c => c.toLower)⟩

/-- A concrete library behaviour: every string is accepted as an address, and
checksumming is modelled by a case-insensitive canonical form (lower-casing),
which satisfies the case-determinism hypothesis of the theorems. -/
def wlib : EthLib where
  is_address := fun _ => true
  to_checksum_address := lowercase
  to_wei := fun q => q.num
  py_int := fun _ => some 1337

/-- A concrete configuration whose allow-lists hold the single address
0xaaa. -/
def wcfg : ServerConfig where
  PRIVATE_KEY := "k"
  NETWORK_ID := "1337"
  ETH_WHITELIST := ["0xaaa"]
  ERC20_WHITELIST := ["0xaaa"]

/-- A concrete connected context with a loaded token contract of 18
decimals. -/
def wctx : Web3Ctx where
  connected := true
  sender_address := some "0xfff"
  token_contract := some "0xccc"
  token_decimals := some 18

/-- A concrete chain oracle whose gas estimation fails for a reason other
than a contract logic error. -/
def wchain : Chain where
  nonce := 7
  gasPrice := 3
  estimateGas := .otherError
  getBalance := fun _ => 0
  balanceOf := fun _ => 0

/-- A configuration whose allow-lists are empty (no whitelist configured). -/
def wcfg_empty : ServerConfig where
  PRIVATE_KEY := "k"
  NETWORK_ID := "1337"
  ETH_WHITELIST := []
  ERC20_WHITELIST := []

/-- A library behaviour under which no string passes address validation. -/
def wlibBad : EthLib where
  is_address := fun _ => false
  to_checksum_address := lowercase
  to_wei := fun q => q.num
  py_int := fun _ => some 1337

/-- The token transfer transaction send_erc20_token builds in the fixture
environment for amount 5.0 (gas falls back to 200000 because the fixture
estimation fails with a non-contract error). -/
def wtx7 : Erc20Tx where
  chainId := 1337
  gasPrice := 3
  nonce := 7
  gas := 200000
  contract := "0xccc"
  transferTo := "0xaaa"
  transferAmount := 5000000000000000000

/-- A startup environment in which the connected chain reports id 1337 and
NETWORK_ID is configured as the string 1337 — the configured and live chain
identifiers agree numerically.  No token contract is configured. -/
def wenv8 : LifespanEnv where
  NETWORK_RPC_URL := "url"
  NETWORK_ID := "1337"
  PRIVATE_KEY := "k"
  TOKEN_CONTRACT_ADDRESS := ""
  connect_ok := true
  chain_id := 1337
  derived_sender := "0xfff"
  decimals_result := none

/-- A startup environment with a configured, well-formed token contract
address whose decimals() read raises. -/
def wenv9 : LifespanEnv where
  NETWORK_RPC_URL := "url"
  NETWORK_ID := "1337"
  PRIVATE_KEY := "k"
  TOKEN_CONTRACT_ADDRESS := "0xccc"
  connect_ok := true
  chain_id := 1337
  derived_sender := "0xfff"
  decimals_result := none

/-! ## Claims -/

/-- C3: for every amount ≤ 0 passed to send_eth or send_erc20_token, the
operation fails validation and returns an error string, and its chain trace is
empty — in particular the sender nonce is never read and no other chain side
effect happens. -/
theorem nonpositive_amount_rejected_before_nonce_read
    (lib : EthLib) (cfg : ServerConfig) (ctx : Web3Ctx) (chain : Chain)
    (to_address : String) (amount : ℚ) (h : amount ≤ 0) :
    (send_eth lib cfg ctx chain to_address amount).1.isError = true ∧
    (send_eth lib cfg ctx chain to_address amount).2 = [] ∧
    (send_erc20_token lib cfg ctx chain to_address amount).1.isError = true ∧
    (send_erc20_token lib cfg ctx chain to_address amount).2 = [] := by
  refine ⟨?_, ?_, ?_, ?_⟩
  · unfold send_eth
    repeat' split
    all_goals simp_all [SendResult.isError]
  · unfold send_eth
    repeat' split
    all_goals simp_all
  · unfold send_erc20_token
    repeat' split
    all_goals simp_all [SendResult.isError]
  · unfold send_erc20_token
    repeat' split
    all_goals simp_all

/-- Witness for C3 at the concrete input amount 0. -/
theorem nonpositive_amount_rejected_before_nonce_read_witness :
    (send_eth wlib wcfg wctx wchain "0xaaa" 0).1.isError = true ∧
    (send_eth wlib wcfg wctx wchain "0xaaa" 0).2 = [] ∧
    (send_erc20_token wlib wcfg wctx wchain "0xaaa" 0).1.isError = true ∧
    (send_erc20_token wlib wcfg wctx wchain "0xaaa" 0).2 = [] :=
  nonpositive_amount_rejected_before_nonce_read wlib wcfg wctx wchain "0xaaa" 0 (by decide)

/-- C10: parse_address_list never raises — it returns, for every input, the
checksums of exactly those entries that pass address validation (malformed
entries are silently dropped); an absent or empty configuration value yields
the empty set; and with an empty allow-list every transfer is rejected with an
error and an empty chain trace (the system fails closed). -/
theorem allow_list_loader_drops_invalid_and_fails_closed
    (lib : EthLib) (s x : String) (cfg : ServerConfig) (ctx : Web3Ctx) (chain : Chain)
    (to_address : String) (amount : ℚ)
    (hwl : cfg.ETH_WHITELIST = []) (hwl2 : cfg.ERC20_WHITELIST = []) :
    parse_address_list lib "" = [] ∧
    (x ∈ parse_address_list lib s ↔
      (s ≠ "" ∧ ∃ a ∈ s.splitOn ",", lib.is_address a.trim = true ∧
        x = lib.to_checksum_address a.trim)) ∧
    (send_eth lib cfg ctx chain to_address amount).1.isError = true ∧
    (send_eth lib cfg ctx chain to_address amount).2 = [] ∧
    (send_erc20_token lib cfg ctx chain to_address amount).1.isError = true ∧
    (send_erc20_token lib cfg ctx chain to_address amount).2 = [] := by
  refine ⟨by simp [parse_address_list], ?_, ?_, ?_, ?_, ?_⟩
  · by_cases hs : s = ""
    · subst hs
      simp [parse_address_list]
    · rw [parse_address_list, if_neg hs]
      simp only [List.mem_map, List.mem_filter]
      constructor
      · rintro ⟨a, ⟨ha, hv⟩, rfl⟩
        exact ⟨hs, a, ha, hv, rfl⟩
      · rintro ⟨-, a, ha, hv, rfl⟩
        exact ⟨a, ⟨ha, hv⟩, rfl⟩
  · unfold send_eth
    repeat' split
    all_goals simp_all [SendResult.isError]
  · unfold send_eth
    repeat' split
    all_goals simp_all
  · unfold send_erc20_token
    repeat' split
    all_goals simp_all [SendResult.isError]
  · unfold send_erc20_token
    repeat' split
    all_goals simp_all

/-- Witness for C10 at a concrete empty-whitelist configuration. -/
theorem allow_list_loader_drops_invalid_and_fails_closed_witness :
    parse_address_list wlib "" = [] ∧
    ("0xaaa" ∈ parse_address_list wlib "0xaaa" ↔
      ("0xaaa" ≠ "" ∧ ∃ a ∈ ("0xaaa").splitOn ",", wlib.is_address a.trim = true ∧
        "0xaaa" = wlib.to_checksum_address a.trim)) ∧
    (send_eth wlib wcfg_empty wctx wchain "0xaaa" 1).1.isError = true ∧
    (send_eth wlib wcfg_empty wctx wchain "0xaaa" 1).2 = [] ∧
    (send_erc20_token wlib wcfg_empty wctx wchain "0xaaa" 1).1.isError = true ∧
    (send_erc20_token wlib wcfg_empty wctx wchain "0xaaa" 1).2 = [] :=
  allow_list_loader_drops_invalid_and_fails_closed wlib "0xaaa" "0xaaa" wcfg_empty wctx wchain
    "0xaaa" 1 (by rfl) (by rfl)

/-- C4: an input failing address-format validation makes get_eth_balance,
send_eth and send_erc20_token return a validation error with an empty chain
trace; for the send operations the result is entirely independent of the
allow-lists (the format check runs strictly before the allow-list lookup, so a
malformed input reveals nothing about list membership), and once the
connection checks pass the returned message is exactly the invalid-address
validation error. -/
theorem malformed_address_rejected_before_allow_list
    (lib : EthLib) (cfg : ServerConfig) (ctx : Web3Ctx) (chain : Chain)
    (address : String) (amount : ℚ) (wl1 wl2 wl3 wl4 : List String)
    (hbad : lib.is_address address = false) :
    (get_eth_balance lib ctx chain address).1.isError = true ∧
    (get_eth_balance lib ctx chain address).2 = [] ∧
    (send_eth lib cfg ctx chain address amount).1.isError = true ∧
    (send_eth lib cfg ctx chain address amount).2 = [] ∧
    (send_erc20_token lib cfg ctx chain address amount).1.isError = true ∧
    (send_erc20_token lib cfg ctx chain address amount).2 = [] ∧
    (send_eth lib { cfg with ETH_WHITELIST := wl1, ERC20_WHITELIST := wl2 } ctx chain
        address amount =
      send_eth lib { cfg with ETH_WHITELIST := wl3, ERC20_WHITELIST := wl4 } ctx chain
        address amount) ∧
    (send_erc20_token lib { cfg with ETH_WHITELIST := wl1, ERC20_WHITELIST := wl2 } ctx chain
        address amount =
      send_erc20_token lib { cfg with ETH_WHITELIST := wl3, ERC20_WHITELIST := wl4 } ctx chain
        address amount) ∧
    (ctx.connected = true →
      (get_eth_balance lib ctx chain address).1 =
        .error ("Error: Invalid Ethereum address provided: " ++ address)) ∧
    (∀ s, ctx.connected = true → ctx.sender_address = some s →
      (send_eth lib cfg ctx chain address amount).1 =
        .error ("Error: Invalid recipient address: " ++ address)) := by
  refine ⟨?_, ?_, ?_, ?_, ?_, ?_, ?_, ?_, ?_, ?_⟩
  · unfold get_eth_balance
    repeat' split
    all_goals simp_all [BalanceResult.isError]
  · unfold get_eth_balance
    repeat' split
    all_goals simp_all
  · unfold send_eth
    repeat' split
    all_goals simp_all [SendResult.isError]
  · unfold send_eth
    repeat' split
    all_goals simp_all
  · unfold send_erc20_token
    repeat' split
    all_goals simp_all [SendResult.isError]
  · unfold send_erc20_token
    repeat' split
    all_goals simp_all
  · unfold send_eth
    repeat' split
    all_goals simp_all
  · unfold send_erc20_token
    repeat' split
    all_goals simp_all
  · intro hconn
    simp [get_eth_balance, hconn, hbad]
  · intro s hconn hs
    simp [send_eth, hconn, hs, hbad]

/-- Witness for C4 at the concrete malformed input 0xInvalidAddress. -/
theorem malformed_address_rejected_before_allow_list_witness :
    (get_eth_balance wlibBad wctx wchain "0xInvalidAddress").1.isError = true ∧
    (get_eth_balance wlibBad wctx wchain "0xInvalidAddress").2 = [] ∧
    (send_eth wlibBad wcfg wctx wchain "0xInvalidAddress" 1).1.isError = true ∧
    (send_eth wlibBad wcfg wctx wchain "0xInvalidAddress" 1).2 = [] ∧
    (send_erc20_token wlibBad wcfg wctx wchain "0xInvalidAddress" 1).1.isError = true ∧
    (send_erc20_token wlibBad wcfg wctx wchain "0xInvalidAddress" 1).2 = [] ∧
    (send_eth wlibBad { wcfg with ETH_WHITELIST := ["0xaaa"], ERC20_WHITELIST := ["0xaaa"] }
        wctx wchain "0xInvalidAddress" 1 =
      send_eth wlibBad { wcfg with ETH_WHITELIST := [], ERC20_WHITELIST := [] }
        wctx wchain "0xInvalidAddress" 1) ∧
    (send_erc20_token wlibBad
        { wcfg with ETH_WHITELIST := ["0xaaa"], ERC20_WHITELIST := ["0xaaa"] }
        wctx wchain "0xInvalidAddress" 1 =
      send_erc20_token wlibBad { wcfg with ETH_WHITELIST := [], ERC20_WHITELIST := [] }
        wctx wchain "0xInvalidAddress" 1) ∧
    (wctx.connected = true →
      (get_eth_balance wlibBad wctx wchain "0xInvalidAddress").1 =
        .error ("Error: Invalid Ethereum address provided: " ++ "0xInvalidAddress")) ∧
    (∀ s, wctx.connected = true → wctx.sender_address = some s →
      (send_eth wlibBad wcfg wctx wchain "0xInvalidAddress" 1).1 =
        .error ("Error: Invalid recipient address: " ++ "0xInvalidAddress")) :=
  malformed_address_rejected_before_allow_list wlibBad wcfg wctx wchain "0xInvalidAddress" 1
    ["0xaaa"] ["0xaaa"] [] [] (by rfl)

/-- C1: a destination whose checksummed form is not in the allow-list
relevant to the operation — ETH_WHITELIST for send_eth, ERC20_WHITELIST for
send_erc20_token, each conditioned only on its own list — makes that
operation return an error with an empty chain trace (no nonce acquisition, no
send_raw_transaction); since membership is decided on the checksummed form —
determined by the case-insensitive content of the address — every case
variation of a non-listed address is rejected the same way; and when all
earlier validation passes, the returned message is exactly the
not-whitelisted authorization error. -/
theorem non_whitelisted_destination_rejected_without_chain_interaction
    (lib : EthLib) (cfg : ServerConfig) (ctx : Web3Ctx) (chain : Chain)
    (to_address alt_address : String) (amount amount2 : ℚ)
    (hcs : ∀ a b : String, lowercase a = lowercase b →
      lib.to_checksum_address a = lib.to_checksum_address b)
    (hvar : lowercase alt_address = lowercase to_address) :
    (lib.to_checksum_address to_address ∉ cfg.ETH_WHITELIST →
      ((send_eth lib cfg ctx chain to_address amount).1.isError = true ∧
       (send_eth lib cfg ctx chain to_address amount).2 = []) ∧
      ((send_eth lib cfg ctx chain alt_address amount2).1.isError = true ∧
       (send_eth lib cfg ctx chain alt_address amount2).2 = []) ∧
      (∀ s, ctx.connected = true → ctx.sender_address = some s →
        lib.is_address to_address = true → 0 < amount → cfg.PRIVATE_KEY ≠ "" →
        (send_eth lib cfg ctx chain to_address amount).1 =
          .error ("Error: Recipient address " ++ to_address ++
            " is not whitelisted for ETH transfers."))) ∧
    (lib.to_checksum_address to_address ∉ cfg.ERC20_WHITELIST →
      ((send_erc20_token lib cfg ctx chain to_address amount).1.isError = true ∧
       (send_erc20_token lib cfg ctx chain to_address amount).2 = []) ∧
      ((send_erc20_token lib cfg ctx chain alt_address amount2).1.isError = true ∧
       (send_erc20_token lib cfg ctx chain alt_address amount2).2 = []) ∧
      (∀ s tc, ctx.connected = true → ctx.sender_address = some s →
        ctx.token_contract = some tc →
        lib.is_address to_address = true → 0 < amount → cfg.PRIVATE_KEY ≠ "" →
        (send_erc20_token lib cfg ctx chain to_address amount).1 =
          .error ("Error: Recipient address " ++ to_address ++
            " is not whitelisted for ERC20 transfers."))) := by
  have halt : lib.to_checksum_address alt_address = lib.to_checksum_address to_address :=
    hcs alt_address to_address hvar
  constructor
  · intro heth
    refine ⟨⟨?_, ?_⟩, ⟨?_, ?_⟩, ?_⟩
    · unfold send_eth
      repeat' split
      all_goals simp_all [SendResult.isError]
    · unfold send_eth
      repeat' split
      all_goals simp_all
    · unfold send_eth
      repeat' split
      all_goals simp_all [SendResult.isError]
    · unfold send_eth
      repeat' split
      all_goals simp_all
    · intro s hconn hs haddr hpos hkey
      have hnle : ¬ amount ≤ 0 := not_le.mpr hpos
      simp [send_eth, hconn, hs, haddr, hnle, hkey, heth]
  · intro herc
    refine ⟨⟨?_, ?_⟩, ⟨?_, ?_⟩, ?_⟩
    · unfold send_erc20_token
      repeat' split
      all_goals simp_all [SendResult.isError]
    · unfold send_erc20_token
      repeat' split
      all_goals simp_all
    · unfold send_erc20_token
      repeat' split
      all_goals simp_all [SendResult.isError]
    · unfold send_erc20_token
      repeat' split
      all_goals simp_all
    · intro s tc hconn hs htc haddr hpos hkey
      have hnle : ¬ amount ≤ 0 := not_le.mpr hpos
      simp [send_erc20_token, hconn, hs, htc, haddr, hnle, hkey, herc]

/-- Witness for C1 at the concrete non-listed destination 0xbbb and its case
variation 0xBBB, with each operation conditioned only on its own allow-list. -/
theorem non_whitelisted_destination_rejected_without_chain_interaction_witness :
    ((send_eth wlib wcfg wctx wchain "0xbbb" 1).1.isError = true ∧
     (send_eth wlib wcfg wctx wchain "0xbbb" 1).2 = []) ∧
    ((send_eth wlib wcfg wctx wchain "0xBBB" 1).1.isError = true ∧
     (send_eth wlib wcfg wctx wchain "0xBBB" 1).2 = []) ∧
    ((send_erc20_token wlib wcfg wctx wchain "0xbbb" 1).1.isError = true ∧
     (send_erc20_token wlib wcfg wctx wchain "0xbbb" 1).2 = []) ∧
    ((send_erc20_token wlib wcfg wctx wchain "0xBBB" 1).1.isError = true ∧
     (send_erc20_token wlib wcfg wctx wchain "0xBBB" 1).2 = []) ∧
    (send_eth wlib wcfg wctx wchain "0xbbb" 1).1 =
      .error ("Error: Recipient address " ++ "0xbbb" ++
        " is not whitelisted for ETH transfers.") ∧
    (send_erc20_token wlib wcfg wctx wchain "0xbbb" 1).1 =
      .error ("Error: Recipient address " ++ "0xbbb" ++
        " is not whitelisted for ERC20 transfers.") := by
  have h := non_whitelisted_destination_rejected_without_chain_interaction wlib wcfg wctx
    wchain "0xbbb" "0xBBB" 1 1 (fun a b hab => hab) (by decide)
  have he := h.1 (by decide)
  have hc := h.2 (by decide)
  exact ⟨he.1, he.2.1, hc.1, hc.2.1,
    he.2.2 "0xfff" (by rfl) (by rfl) (by rfl) (by decide) (by decide),
    hc.2.2 "0xfff" "0xccc" (by rfl) (by rfl) (by rfl) (by rfl) (by decide) (by decide)⟩

/-- C5: send_eth always submits with the fixed gas budget 21000; for
send_erc20_token gas is estimated via the simulated call — a
ContractLogicError during estimation aborts the operation with a
contract-logic error and nothing is broadcast, any other estimation failure
falls back to the fixed budget 200000 and the transfer proceeds to broadcast,
and a successful estimate is used with its buffer. -/
theorem gas_determination_follows_spec
    (lib : EthLib) (cfg : ServerConfig) (ctx : Web3Ctx) (chain : Chain)
    (to_address : String) (amount : ℚ) (s tc : String) (cid : Int)
    (hconn : ctx.connected = true) (hs : ctx.sender_address = some s)
    (htc : ctx.token_contract = some tc) (haddr : lib.is_address to_address = true)
    (hpos : 0 < amount) (hkey : cfg.PRIVATE_KEY ≠ "")
    (hwleth : lib.to_checksum_address to_address ∈ cfg.ETH_WHITELIST)
    (hwlerc : lib.to_checksum_address to_address ∈ cfg.ERC20_WHITELIST)
    (hcid : lib.py_int cfg.NETWORK_ID = some cid) :
    (∀ (lib2 : EthLib) (cfg2 : ServerConfig) (ctx2 : Web3Ctx) (chain2 : Chain)
      (a : String) (q : ℚ) (tx : EthTx),
      (send_eth lib2 cfg2 ctx2 chain2 a q).1 = .submitted tx → tx.gas = 21000) ∧
    ((send_eth lib cfg ctx chain to_address amount).1 =
      .submitted { chainId := cid, nonce := chain.nonce,
                   toAddr := lib.to_checksum_address to_address,
                   value := lib.to_wei amount, gas := 21000, gasPrice := chain.gasPrice }) ∧
    (chain.estimateGas = .contractLogicError →
      (send_erc20_token lib cfg ctx chain to_address amount).1 =
        .error "Error: Gas estimation failed. Check sender token balance." ∧
      (send_erc20_token lib cfg ctx chain to_address amount).2 =
        [.getTransactionCount s, .gasPrice, .estimateGas] ∧
      ChainCall.sendRawTransaction ∉ (send_erc20_token lib cfg ctx chain to_address amount).2) ∧
    (chain.estimateGas = .otherError →
      (send_erc20_token lib cfg ctx chain to_address amount).1 =
        .submitted { chainId := cid, gasPrice := chain.gasPrice, nonce := chain.nonce,
                     gas := 200000, contract := tc,
                     transferTo := lib.to_checksum_address to_address,
                     transferAmount :=
                       amountInSmallestUnit amount (effective_token_decimals ctx) } ∧
      (send_erc20_token lib cfg ctx chain to_address amount).2 =
        [.getTransactionCount s, .gasPrice, .estimateGas, .sendRawTransaction]) ∧
    (∀ g, chain.estimateGas = .ok g →
      (send_erc20_token lib cfg ctx chain to_address amount).1 =
        .submitted { chainId := cid, gasPrice := chain.gasPrice, nonce := chain.nonce,
                     gas := gasWithBuffer g, contract := tc,
                     transferTo := lib.to_checksum_address to_address,
                     transferAmount :=
                       amountInSmallestUnit amount (effective_token_decimals ctx) } ∧
      (send_erc20_token lib cfg ctx chain to_address amount).2 =
        [.getTransactionCount s, .gasPrice, .estimateGas, .sendRawTransaction]) := by
  have hnle : ¬ amount ≤ 0 := not_le.mpr hpos
  refine ⟨?_, ?_, ?_, ?_, ?_⟩
  · intro lib2 cfg2 ctx2 chain2 a q tx htx
    unfold send_eth at htx
    repeat' split at htx
    all_goals try (by_cases hmem : lib2.to_checksum_address a ∈ cfg2.ETH_WHITELIST)
    all_goals simp_all
    all_goals (subst htx; rfl)
  · simp [send_eth, hconn, hs, haddr, hnle, hkey, hwleth, hcid]
  · intro hest
    refine ⟨?_, ?_, ?_⟩ <;>
      simp [send_erc20_token, hconn, hs, htc, haddr, hnle, hkey, hwlerc, hcid, hest]
  · intro hest
    refine ⟨?_, ?_⟩ <;>
      simp [send_erc20_token, hconn, hs, htc, haddr, hnle, hkey, hwlerc, hcid, hest]
  · intro g hest
    refine ⟨?_, ?_⟩ <;>
      simp [send_erc20_token, hconn, hs, htc, haddr, hnle, hkey, hwlerc, hcid, hest]

/-- Witness for C5 at the concrete whitelisted destination 0xaaa. -/
theorem gas_determination_follows_spec_witness :
    (∀ (lib2 : EthLib) (cfg2 : ServerConfig) (ctx2 : Web3Ctx) (chain2 : Chain)
      (a : String) (q : ℚ) (tx : EthTx),
      (send_eth lib2 cfg2 ctx2 chain2 a q).1 = .submitted tx → tx.gas = 21000) ∧
    ((send_eth wlib wcfg wctx wchain "0xaaa" 1).1 =
      .submitted { chainId := 1337, nonce := wchain.nonce,
                   toAddr := wlib.to_checksum_address "0xaaa",
                   value := wlib.to_wei 1, gas := 21000, gasPrice := wchain.gasPrice }) ∧
    (wchain.estimateGas = .contractLogicError →
      (send_erc20_token wlib wcfg wctx wchain "0xaaa" 1).1 =
        .error "Error: Gas estimation failed. Check sender token balance." ∧
      (send_erc20_token wlib wcfg wctx wchain "0xaaa" 1).2 =
        [.getTransactionCount "0xfff", .gasPrice, .estimateGas] ∧
      ChainCall.sendRawTransaction ∉ (send_erc20_token wlib wcfg wctx wchain "0xaaa" 1).2) ∧
    (wchain.estimateGas = .otherError →
      (send_erc20_token wlib wcfg wctx wchain "0xaaa" 1).1 =
        .submitted { chainId := 1337, gasPrice := wchain.gasPrice, nonce := wchain.nonce,
                     gas := 200000, contract := "0xccc",
                     transferTo := wlib.to_checksum_address "0xaaa",
                     transferAmount :=
                       amountInSmallestUnit 1 (effective_token_decimals wctx) } ∧
      (send_erc20_token wlib wcfg wctx wchain "0xaaa" 1).2 =
        [.getTransactionCount "0xfff", .gasPrice, .estimateGas, .sendRawTransaction]) ∧
    (∀ g, wchain.estimateGas = .ok g →
      (send_erc20_token wlib wcfg wctx wchain "0xaaa" 1).1 =
        .submitted { chainId := 1337, gasPrice := wchain.gasPrice, nonce := wchain.nonce,
                     gas := gasWithBuffer g, contract := "0xccc",
                     transferTo := wlib.to_checksum_address "0xaaa",
                     transferAmount :=
                       amountInSmallestUnit 1 (effective_token_decimals wctx) } ∧
      (send_erc20_token wlib wcfg wctx wchain "0xaaa" 1).2 =
        [.getTransactionCount "0xfff", .gasPrice, .estimateGas, .sendRawTransaction]) :=
  gas_determination_follows_spec wlib wcfg wctx wchain "0xaaa" 1 "0xfff" "0xccc" 1337
    (by rfl) (by rfl) (by rfl) (by rfl) (by decide) (by decide) (by decide) (by decide) (by rfl)

/-- C7: with a token decimal precision of 18, a send_erc20_token call for
amount 5.0 builds a transfer whose smallest-unit amount is exactly 5 * 10^18
(the float conversion int(5.0 * 10^18) is exact), and every transaction it
submits carries that amount. -/
theorem amount_five_with_18_decimals_is_exact
    (lib : EthLib) (cfg : ServerConfig) (ctx : Web3Ctx) (chain : Chain) (to_address : String)
    (hd : effective_token_decimals ctx = 18) :
    amountInSmallestUnit 5 18 = 5 * 10 ^ 18 ∧
    (∀ tx : Erc20Tx, (send_erc20_token lib cfg ctx chain to_address 5).1 = .submitted tx →
      tx.transferAmount = 5 * 10 ^ 18) := by
  refine ⟨by decide, ?_⟩
  intro tx htx
  unfold send_erc20_token at htx
  repeat' split at htx
  all_goals try (by_cases hmem : lib.to_checksum_address to_address ∈ cfg.ERC20_WHITELIST)
  all_goals simp_all
  all_goals subst htx
  all_goals exact (by decide : amountInSmallestUnit 5 18 = 5000000000000000000)

/-- Witness for C7: the transaction actually built in the fixture environment
carries exactly 5 * 10^18 smallest units. -/
theorem amount_five_with_18_decimals_is_exact_witness :
    wtx7.transferAmount = 5 * 10 ^ 18 ∧ amountInSmallestUnit 5 18 = 5 * 10 ^ 18 :=
  ⟨(amount_five_with_18_decimals_is_exact wlib wcfg wctx wchain "0xaaa" (by rfl)).2 wtx7
      (by decide),
   (amount_five_with_18_decimals_is_exact wlib wcfg wctx wchain "0xaaa" (by rfl)).1⟩

/-- C6 counterexample: the round trip as the code performs it is not the
identity — a smallest-unit balance of 29 with decimal precision 2 converts to
the binary64 value 0.29, and int(0.29 * 100) truncates to 28, not 29. -/
theorem balance_round_trip_fails_at_29_with_2_decimals :
    balance_round_trip 29 2 = 28 ∧ balance_round_trip 29 2 ≠ 29 := by decide

/-- C6 amended: the round trip is the identity under the exact rational
semantics of the two conversions (for every balance and decimal precision),
and the code reproduces it whenever the intermediate binary64 values are
exact, as for 5 * 10^18 at 18 decimals; but the float arithmetic the code
uses breaks the identity in general. -/
theorem balance_round_trip_exact_in_ideal_arithmetic :
    (∀ b d : Nat, spec_round_trip_exact b d = b) ∧
    balance_round_trip 5000000000000000000 18 = 5000000000000000000 := by
  constructor
  · intro b d
    unfold spec_round_trip_exact
    rw [div_mul_cancel₀]
    · exact_mod_cast Int.floor_natCast b
    · positivity
  · decide

/-- C2: a pending sensitive operation resolved as denied produces a cancelled
result and performs no chain interaction at all (in particular nothing is
broadcast); resolved as approved with its recorded arguments unchanged, a
valid send_eth_hitl or send_erc20_hitl performs exactly one
send_raw_transaction broadcast; no chain-mutating broadcast can ever happen
from a step whose confirmation was not approved; and a round whose decisions
are all denials performs no chain interaction whatsoever. -/
theorem denied_never_broadcasts_and_approved_broadcasts_once
    (lib : EthLib) (cfg : ServerConfig) (ctx : Web3Ctx) (chain : Chain)
    (answer : String) (p : PendingTool) (to_address token_address : String) (amount : ℚ)
    (s tc : String) (cid : Int)
    (hden : confirm_tool_cli answer = false)
    (hconn : ctx.connected = true) (hs : ctx.sender_address = some s)
    (htc : ctx.token_contract = some tc) (haddr : lib.is_address to_address = true)
    (hpos : 0 < amount) (hkey : cfg.PRIVATE_KEY ≠ "")
    (hwleth : lib.to_checksum_address to_address ∈ cfg.ETH_WHITELIST)
    (hwlerc : lib.to_checksum_address to_address ∈ cfg.ERC20_WHITELIST)
    (hcid : lib.py_int cfg.NETWORK_ID = some cid)
    (hest : chain.estimateGas ≠ .contractLogicError) :
    (hitl_step lib cfg ctx chain answer p = (.cancelled, [])) ∧
    ((hitl_step lib cfg ctx chain "y" (.sendEth to_address amount)).2.count
      .sendRawTransaction = 1) ∧
    ((hitl_step lib cfg ctx chain "y"
        (.sendErc20 token_address to_address amount)).2.count .sendRawTransaction = 1) ∧
    (∀ (answer2 : String) (q : PendingTool),
      ChainCall.sendRawTransaction ∈ (hitl_step lib cfg ctx chain answer2 q).2 →
      confirm_tool_cli answer2 = true) ∧
    (∀ (answers : PendingTool → String) (pending : List PendingTool),
      (∀ q ∈ pending, confirm_tool_cli (answers q) = false) →
      ((run_confirmation_round lib cfg ctx chain answers pending).map Prod.snd).flatten = []) := by
  have hnle : ¬ amount ≤ 0 := not_le.mpr hpos
  refine ⟨?_, ?_, ?_, ?_, ?_⟩
  · unfold hitl_step
    rw [if_neg]
    simp [hden]
  · simp [hitl_step, confirm_tool_cli, execute_pending, send_eth,
      hconn, hs, haddr, hnle, hkey, hwleth, hcid, List.count_cons]
  · rcases hg : chain.estimateGas with g | _ | _
    · simp [hitl_step, confirm_tool_cli, execute_pending, send_erc20_token,
        hconn, hs, htc, haddr, hnle, hkey, hwlerc, hcid, hg, List.count_cons]
    · exact absurd hg hest
    · simp [hitl_step, confirm_tool_cli, execute_pending, send_erc20_token,
        hconn, hs, htc, haddr, hnle, hkey, hwlerc, hcid, hg, List.count_cons]
  · intro answer2 q hmem
    by_cases hc : confirm_tool_cli answer2 = true
    · exact hc
    · unfold hitl_step at hmem
      rw [if_neg hc] at hmem
      simp at hmem
  · intro answers pending hall
    induction pending with
    | nil => simp [run_confirmation_round]
    | cons q rest ih =>
      have hq : confirm_tool_cli (answers q) = false := hall q (by simp)
      have ih2 := ih (fun r hr => hall r (by simp [hr]))
      simp only [run_confirmation_round, List.map_cons, List.map_map, List.flatten] at ih2 ⊢
      simp [hitl_step, hq, ih2]
      intro a ha
      have hfa : confirm_tool_cli (answers a) = false := hall a (by simp [ha])
      simp [hfa]

/-- Witness for C2: a denied confirmation in the fixture environment cancels
with no chain calls, and approved fixture transfers broadcast exactly once. -/
theorem denied_never_broadcasts_and_approved_broadcasts_once_witness :
    (hitl_step wlib wcfg wctx wchain "n" (.sendEth "0xaaa" 1) = (.cancelled, [])) ∧
    ((hitl_step wlib wcfg wctx wchain "y" (.sendEth "0xaaa" 1)).2.count
      .sendRawTransaction = 1) ∧
    ((hitl_step wlib wcfg wctx wchain "y"
        (.sendErc20 "0xccc" "0xaaa" 1)).2.count .sendRawTransaction = 1) := by
  have h := denied_never_broadcasts_and_approved_broadcasts_once wlib wcfg wctx wchain
    "n" (.sendEth "0xaaa" 1) "0xaaa" "0xccc" 1 "0xfff" "0xccc" 1337
    (by decide) (by rfl) (by rfl) (by rfl) (by rfl) (by decide) (by decide)
    (by decide) (by decide) (by rfl) (by decide)
  exact ⟨h.1, h.2.1, h.2.2.1⟩

/-- C8 evaluation at the failing input: with the live chain reporting id 1337
and NETWORK_ID configured as the string 1337 — numerically identical values —
startup still emits the chain-id mismatch warning, because the source compares
the int chain id against the raw NETWORK_ID string and Python equality between
an int and a str is always false.  The configured identifier is therefore
never actually validated against the live connection: the check cannot
succeed. -/
theorem network_id_check_warns_even_when_ids_match :
    pyEq (.int 1337) (.str "1337") = false ∧
    wenv8.chain_id = 1337 ∧ wenv8.NETWORK_ID = "1337" ∧
    web3_lifespan wlib wenv8 =
      .started { connected := true, sender_address := some "0xfff",
                 token_contract := none, token_decimals := none }
        [chain_id_mismatch_warning, no_token_warning] ∧
    chain_id_mismatch_warning ∈ [chain_id_mismatch_warning, no_token_warning] := by
  refine ⟨rfl, rfl, rfl, by decide, by simp⟩

/-- C9: when a token contract is configured and well-formed but the
decimals() read fails during initialization, startup still succeeds with a
warning logged, the yielded context carries no decimal precision, and every
subsequent token operation behaves exactly as with the fallback precision 18
(send_erc20_token on this context equals send_erc20_token on the same context
with decimals 18). -/
theorem decimals_read_failure_is_nonfatal_with_fallback_18
    (lib : EthLib) (env : LifespanEnv)
    (hrpc : env.NETWORK_RPC_URL ≠ "") (hid : env.NETWORK_ID ≠ "")
    (hpk : env.PRIVATE_KEY ≠ "") (hconn : env.connect_ok = true)
    (htok : env.TOKEN_CONTRACT_ADDRESS ≠ "")
    (hvalid : lib.is_address env.TOKEN_CONTRACT_ADDRESS = true)
    (hfail : env.decimals_result = none) :
    web3_lifespan lib env =
      .started { connected := true, sender_address := some env.derived_sender,
                 token_contract := some (lib.to_checksum_address env.TOKEN_CONTRACT_ADDRESS),
                 token_decimals := none }
        [chain_id_mismatch_warning, decimals_warning] ∧
    decimals_warning ∈ [chain_id_mismatch_warning, decimals_warning] ∧
    effective_token_decimals
      { connected := true, sender_address := some env.derived_sender,
        token_contract := some (lib.to_checksum_address env.TOKEN_CONTRACT_ADDRESS),
        token_decimals := none } = 18 ∧
    (∀ (cfg : ServerConfig) (chain : Chain) (to_address : String) (amount : ℚ),
      send_erc20_token lib cfg
        { connected := true, sender_address := some env.derived_sender,
          token_contract := some (lib.to_checksum_address env.TOKEN_CONTRACT_ADDRESS),
          token_decimals := none } chain to_address amount =
      send_erc20_token lib cfg
        { connected := true, sender_address := some env.derived_sender,
          token_contract := some (lib.to_checksum_address env.TOKEN_CONTRACT_ADDRESS),
          token_decimals := some 18 } chain to_address amount) := by
  refine ⟨?_, by simp, rfl, fun cfg chain a q => rfl⟩
  simp [web3_lifespan, hrpc, hid, hpk, hconn, htok, hvalid, hfail, pyEq]

/-- Witness for C9 in a concrete environment whose decimals read fails. -/
theorem decimals_read_failure_is_nonfatal_with_fallback_18_witness :
    web3_lifespan wlib wenv9 =
      .started { connected := true, sender_address := some wenv9.derived_sender,
                 token_contract :=
                   some (wlib.to_checksum_address wenv9.TOKEN_CONTRACT_ADDRESS),
                 token_decimals := none }
        [chain_id_mismatch_warning, decimals_warning] ∧
    effective_token_decimals
      { connected := true, sender_address := some wenv9.derived_sender,
        token_contract := some (wlib.to_checksum_address wenv9.TOKEN_CONTRACT_ADDRESS),
        token_decimals := none } = 18 := by
  have h := decimals_read_failure_is_nonfatal_with_fallback_18 wlib wenv9
    (by decide) (by decide) (by decide) (by rfl) (by decide) (by rfl) (by rfl)
  exact ⟨h.1, h.2.2.1⟩

end BAA
